import Mathlib

/-!
Shallow embedding of src/graph.py, a command-line configuration validator
built on pydantic.  The pydantic model ConfigModel declares its fields in
the order package, repo, version, repo_mode, ascii_tree.  Pydantic runs the
field checks in declaration order, and a validator for a field only sees
the previously validated fields through info.data.  The validator for repo
reads the mode with info.data.get, defaulting to auto, but repo_mode is
declared after repo, so the lookup always yields auto.  The embedding
records this explicitly: the repo validation step receives none as the
info.data entry for repo_mode.

Filesystem existence, Path.exists in the source, is modelled by an oracle
fs : String → Bool.  URL parsing, urllib.parse.urlparse in the source, is
modelled by looksLikeUrl following urlsplit: a scheme is a leading ASCII
letter followed by ASCII alphanumerics or plus, minus, dot, running up to
the first colon and lowercased; the netloc is the run after a double slash
up to the next slash, question mark or hash.
-/

namespace GraphPy

/-- Characters urlsplit allows inside a URL scheme. -/
def isSchemeChar (c : Char) : Bool :=
  c.isAlphanum || c == '+' || c == '-' || c == '.'

/-- Split a character list at the first colon: the part before and the part
after it, or none when no colon occurs. -/
def splitFirstColon : List Char → Option (List Char × List Char)
  | [] => none
  | c :: cs =>
    if c == ':' then some ([], cs)
    else
      match splitFirstColon cs with
      | some (pre, post) => some (c :: pre, post)
      | none => none

/-- Embeds looks_like_url from src/graph.py lines 48-49: urlparse(v) must
yield scheme http or https and a nonempty netloc. -/
def looksLikeUrl (s : String) : Bool :=
  match splitFirstColon s.toList with
  | none => false
  | some (schemePart, rest) =>
    match schemePart with
    | [] => false
    | c0 :: _ =>
      if c0.isAlpha && schemePart.all isSchemeChar then
        let scheme := schemePart.map Char.toLower
        let netloc : List Char :=
          match rest with
          | '/' :: '/' :: tl => tl.takeWhile (fun c => !(c == '/' || c == '?' || c == '#'))
          | _ => []
        (scheme == "http".toList || scheme == "https".toList) && !netloc.isEmpty
      else false

/-- Embeds the package field pattern of ConfigModel, line 17: the anchored
regex asking for one or more non-colon characters, a colon, and one or more
non-colon characters. -/
def packageOk (s : String) : Bool :=
  match s.toList.dropWhile (fun c => c != ':') with
  | [] => false
  | _ :: rest =>
    !(s.toList.takeWhile (fun c => c != ':')).isEmpty
      && !rest.isEmpty && rest.all (fun c => c != ':')

/-- Embeds the version field constraint of ConfigModel, line 25: pydantic
min_length 1. -/
def versionOk (v : String) : Bool :=
  decide (1 ≤ v.length)

/-- Embeds the repo_mode constraint of ConfigModel, line 28: the Literal
type admits exactly auto, url and file.  The extra validator
repo_mode_allowed, lines 34-39, checks membership in the same set and never
fails once the Literal check has passed. -/
def repoModeOk (m : String) : Bool :=
  m == "auto" || m == "url" || m == "file"

/-- Embeds ConfigModel.repo_must_be_valid_for_mode, lines 43-68.  The
argument dataRepoMode is the entry info.data holds for repo_mode when the
repo validator runs; the source defaults it to auto via info.data.get. -/
def repo_must_be_valid_for_mode (dataRepoMode : Option String)
    (fs : String → Bool) (v : String) : Bool :=
  let mode := dataRepoMode.getD ("auto")
  if mode == "url" then looksLikeUrl v
  else if mode == "file" then fs v
  else looksLikeUrl v || fs v

/-- Validation error kinds, one per ConfigModel field that can fail. -/
inductive FieldErr where
  | package
  | repo
  | version
  | repo_mode
  deriving DecidableEq

/-- Resolved configuration, the params dict built in main, lines 94-100. -/
structure Params where
  package : String
  repo : String
  version : String
  repo_mode : String
  ascii_tree : Bool
  deriving DecidableEq

/-- Embeds pydantic's validation of ConfigModel(**params): fields are
checked in declaration order, package, repo, version, repo_mode, and every
failing field contributes its error, in that order, to the resulting
ValidationError.  When repo is validated, repo_mode has not been validated
yet, so its info.data entry is none and the repo check always runs with the
default mode auto. -/
def validateConfig (fs : String → Bool) (p : Params) : List FieldErr :=
  (if packageOk p.package then [] else [FieldErr.package])
    ++ (if repo_must_be_valid_for_mode none fs p.repo then [] else [FieldErr.repo])
    ++ (if versionOk p.version then [] else [FieldErr.version])
    ++ (if repoModeOk p.repo_mode then [] else [FieldErr.repo_mode])

/-- Embeds print_config, lines 86-88: one key=value line per params entry,
in dict insertion order; Python prints booleans as True or False. -/
def print_config (p : Params) : List String :=
  ["package=" ++ p.package,
   "repo=" ++ p.repo,
   "repo_mode=" ++ p.repo_mode,
   "version=" ++ p.version,
   "ascii_tree=" ++ (if p.ascii_tree then ("True") else ("False"))]

/-- Success message printed by main, line 112; the leading newline of the
Python print makes it an empty stdout line followed by this line. -/
def validatedMsg : String :=
  "Configuration validated successfully. Ready to proceed."

/-- Observable outcome of a run: standard output lines and exit status. -/
structure MainResult where
  stdout : List String
  exitCode : Nat
  deriving DecidableEq

/-- Embeds main after successful argument parsing, lines 94-113: the
key=value echo runs first, then validation; failure exits 2, success
appends an empty line and the success message and exits 0. -/
def mainOn (fs : String → Bool) (p : Params) : MainResult :=
  let out := print_config p
  if validateConfig fs p = [] then
    { stdout := out ++ ["", validatedMsg], exitCode := 0 }
  else
    { stdout := out, exitCode := 2 }

/-- Raw command line for parse_args, lines 71-83: package and repo are
required; version defaults to latest, repo-mode to auto, ascii-tree to
false. -/
structure CliArgs where
  packageArg : Option String := none
  repoArg : Option String := none
  versionArg : String := "latest"
  repoModeArg : String := "auto"
  asciiTreeArg : Bool := false
  deriving DecidableEq

/-- Embeds parse_args, lines 71-83: argparse exits with status 2 when a
required argument is missing or repo-mode lies outside its choices list;
that choices list is exactly the set accepted by repoModeOk. -/
def parse_args (a : CliArgs) : Except Nat Params :=
  match a.packageArg, a.repoArg with
  | some pk, some rp =>
    if repoModeOk a.repoModeArg then
      Except.ok { package := pk, repo := rp, version := a.versionArg,
                  repo_mode := a.repoModeArg, ascii_tree := a.asciiTreeArg }
    else Except.error 2
  | _, _ => Except.error 2

/-- Embeds main, lines 91-113, including the argparse layer: a parsing
error exits with the argparse status and prints nothing on stdout. -/
def main (fs : String → Bool) (a : CliArgs) : MainResult :=
  match parse_args a with
  | Except.error code => { stdout := [], exitCode := code }
  | Except.ok p => mainOn fs p

/-- Existence oracle granting existence to the path /tmp only. -/
def fsTmpOnly : String → Bool := fun s => s == "/tmp"

/-- Input for C1: repo_mode url with a repo that is an existing path and
not a URL. -/
def pUrlMode : Params :=
  { package := "a:b", repo := "/tmp", version := "latest",
    repo_mode := "url", ascii_tree := false }

/-- Input for C2: repo_mode file with a repo that is a valid URL and not an
existing path. -/
def pFileMode : Params :=
  { package := "a:b", repo := "https://repo1.maven.org/maven2",
    version := "latest", repo_mode := "file", ascii_tree := false }

/-- Failing input for C3: the empty package fails validation. -/
def pBad : Params :=
  { package := "", repo := "nope", version := "latest",
    repo_mode := "auto", ascii_tree := false }

/-- Input for C4: a valid configuration with ascii_tree switched on. -/
def pTree : Params :=
  { package := "com.google.guava:guava", repo := "https://repo1.maven.org/maven2",
    version := "latest", repo_mode := "auto", ascii_tree := true }

/-- Input for C6: all four checked fields invalid at once. -/
def pAllBad : Params :=
  { package := " ", repo := "nope", version := "",
    repo_mode := "bogus", ascii_tree := false }

/-- Command line of the C8 example: package and repo given, version
omitted, repo-mode left at its default auto. -/
def guavaArgs : CliArgs :=
  { packageArg := some ("com.google.guava:guava"),
    repoArg := some ("https://repo1.maven.org/maven2") }

/-- Parsed configuration of the C8 example. -/
def guavaParams : Params :=
  { package := "com.google.guava:guava", repo := "https://repo1.maven.org/maven2",
    version := "latest", repo_mode := "auto", ascii_tree := false }

/-- With no repo_mode entry in info.data the repo check is the auto check:
URL or existing path. -/
theorem repoCheck_none_eq (fs : String → Bool) (v : String) :
    repo_must_be_valid_for_mode none fs v = (looksLikeUrl v || fs v) := rfl

/-- The package error occurs exactly when the package pattern fails. -/
theorem mem_package_iff (fs : String → Bool) (p : Params) :
    FieldErr.package ∈ validateConfig fs p ↔ packageOk p.package = false := by
  unfold validateConfig
  split_ifs <;> simp_all

/-- The repo error occurs exactly when the repo string is neither a valid
http or https URL nor an existing filesystem entry. -/
theorem mem_repo_iff (fs : String → Bool) (p : Params) :
    FieldErr.repo ∈ validateConfig fs p ↔ (looksLikeUrl p.repo || fs p.repo) = false := by
  unfold validateConfig
  rw [repoCheck_none_eq]
  cases hu : (looksLikeUrl p.repo || fs p.repo) <;> split_ifs <;> simp_all

/-- The version error occurs exactly when the version fails min_length. -/
theorem mem_version_iff (fs : String → Bool) (p : Params) :
    FieldErr.version ∈ validateConfig fs p ↔ versionOk p.version = false := by
  unfold validateConfig
  split_ifs <;> simp_all

/-- The repo_mode error occurs exactly when the mode lies outside the
enumerated set. -/
theorem mem_mode_iff (fs : String → Bool) (p : Params) :
    FieldErr.repo_mode ∈ validateConfig fs p ↔ repoModeOk p.repo_mode = false := by
  unfold validateConfig
  split_ifs <;> simp_all

/-- A string without a colon fails the package pattern. -/
theorem packageOk_eq_false_of_no_colon (s : String)
    (h : ∀ c ∈ s.toList, c ≠ ':') : packageOk s = false := by
  have hd : List.dropWhile (fun c => c != ':') s.data = [] := by
    rw [List.dropWhile_eq_nil_iff]
    intro c hc
    simpa using h c hc
  simp [packageOk, hd]

/-- The version check fails exactly on the empty string. -/
theorem versionOk_false_iff (v : String) : versionOk v = false ↔ v = "" := by
  constructor
  · intro h
    have hle : ¬ (1 ≤ v.length) := of_decide_eq_false h
    have hlen : v.length = 0 := by omega
    rcases v with ⟨data⟩
    cases data with
    | nil => rfl
    | cons c cs => simp [String.length] at hlen
  · intro h
    subst h
    decide

/-- Concatenating strings concatenates their character lists. -/
theorem append_data (a b : String) : (a ++ b).data = a.data ++ b.data := by
  rcases a with ⟨la⟩
  rcases b with ⟨lb⟩
  rfl

/-- The placeholder marker contains no equals sign, so it differs from any
string extending one that contains an equals sign. -/
theorem marker_ne_append (a b : String) (h : ('=' : Char) ∈ a.data) :
    ("dependencies not implemented" : String) ≠ a ++ b := by
  intro he
  have hm : ('=' : Char) ∈ ("dependencies not implemented" : String).data := by
    rw [he, append_data]
    exact List.mem_append_left _ h
  exact absurd hm (by decide)

/-- Argparse-level rejections always carry exit status 2. -/
theorem parse_args_error_code (a : CliArgs) (c : Nat)
    (h : parse_args a = Except.error c) : c = 2 := by
  unfold parse_args at h
  cases hpk : a.packageArg <;> cases hrp : a.repoArg <;> rw [hpk, hrp] at h
  · simp at h; omega
  · simp at h; omega
  · simp at h; omega
  · split_ifs at h <;> simp_all

/-- C1: at the failing input package a:b, repo /tmp with /tmp existing on
disk, repo_mode url, the code accepts the configuration and exits 0 even
though /tmp is not an http or https URL, because the repo validator runs
before repo_mode is available and so always uses the default mode auto. -/
theorem url_mode_accepts_existing_path :
    pUrlMode.repo_mode = "url"
    ∧ looksLikeUrl pUrlMode.repo = false
    ∧ fsTmpOnly pUrlMode.repo = true
    ∧ validateConfig fsTmpOnly pUrlMode = []
    ∧ (mainOn fsTmpOnly pUrlMode).exitCode = 0 := by
  decide

/-- C2: at the failing input package a:b, repo a valid Maven URL that does
not exist as a path, repo_mode file, the code accepts the configuration and
exits 0 even though no such path exists, because the repo validator always
uses the default mode auto and the URL test passes. -/
theorem file_mode_accepts_url :
    pFileMode.repo_mode = "file"
    ∧ (fun _ => false : String → Bool) pFileMode.repo = false
    ∧ looksLikeUrl pFileMode.repo = true
    ∧ validateConfig (fun _ => false) pFileMode = []
    ∧ (mainOn (fun _ => false) pFileMode).exitCode = 0 := by
  decide

/-- C3 counterexample: an invocation that fails validation still shows the
key=value field lines on standard output, because main prints the echo
before constructing the pydantic model. -/
theorem echo_before_validation_cex :
    validateConfig (fun _ => false) pBad ≠ []
    ∧ (mainOn (fun _ => false) pBad).stdout =
        ["package=", "repo=nope", "repo_mode=auto", "version=latest", "ascii_tree=False"] := by
  decide

/-- C3 (amended): the key=value echo is printed unconditionally before
validation runs, so on every invocation that reaches the validator the
first five stdout lines are the fields in the fixed order package, repo,
repo_mode, version, ascii_tree, whether validation succeeds or fails. -/
theorem config_echo_unconditional (fs : String → Bool) (p : Params) :
    (mainOn fs p).stdout.take 5 =
      ["package=" ++ p.package,
       "repo=" ++ p.repo,
       "repo_mode=" ++ p.repo_mode,
       "version=" ++ p.version,
       "ascii_tree=" ++ (if p.ascii_tree then ("True") else ("False"))] := by
  by_cases h : validateConfig fs p = []
  · simp [mainOn, print_config, h]
  · simp [mainOn, print_config, h]

/-- C4 counterexample: a validated invocation with ascii_tree set prints
only the echo, an empty line and the success message; no package at
version header and no dependencies-not-implemented marker appear. -/
theorem ascii_tree_no_placeholder :
    validateConfig (fun _ => false) pTree = []
    ∧ pTree.ascii_tree = true
    ∧ (mainOn (fun _ => false) pTree).stdout =
        ["package=com.google.guava:guava", "repo=https://repo1.maven.org/maven2",
         "repo_mode=auto", "version=latest", "ascii_tree=True", "",
         "Configuration validated successfully. Ready to proceed."]
    ∧ ("dependencies not implemented" : String) ∉ (mainOn (fun _ => false) pTree).stdout
    ∧ ("com.google.guava:guava@latest" : String) ∉ (mainOn (fun _ => false) pTree).stdout := by
  decide

/-- C4 (amended): for every invocation that passes validation, stdout is
exactly the key=value echo followed by an empty line and the success
message; in particular no placeholder tree block and no literal
dependencies-not-implemented marker line is printed, whether or not
ascii_tree is set. -/
theorem success_output_no_tree (fs : String → Bool) (p : Params)
    (h : validateConfig fs p = []) :
    (mainOn fs p).stdout = print_config p ++ ["", validatedMsg]
    ∧ ("dependencies not implemented" : String) ∉ (mainOn fs p).stdout
    ∧ (mainOn fs p).exitCode = 0 := by
  have hstd : (mainOn fs p).stdout = print_config p ++ ["", validatedMsg] := by
    simp [mainOn, h]
  refine ⟨hstd, ?_, by simp [mainOn, h]⟩
  rw [hstd]
  intro hmem
  simp only [print_config, List.mem_append, List.mem_cons, List.mem_singleton,
    List.not_mem_nil, or_false] at hmem
  rcases hmem with ((h1 | h2 | h3 | h4 | h5) | h6 | h7)
  · exact marker_ne_append _ _ (by decide) h1
  · exact marker_ne_append _ _ (by decide) h2
  · exact marker_ne_append _ _ (by decide) h3
  · exact marker_ne_append _ _ (by decide) h4
  · exact marker_ne_append _ _ (by decide) h5
  · exact absurd h6 (by decide)
  · exact absurd h7 (by decide)

/-- Witness for C4: the amended statement evaluated at the concrete valid
ascii_tree configuration. -/
theorem success_output_no_tree_witness :
    (mainOn (fun _ => false) pTree).stdout = print_config pTree ++ ["", validatedMsg]
    ∧ ("dependencies not implemented" : String) ∉ (mainOn (fun _ => false) pTree).stdout
    ∧ (mainOn (fun _ => false) pTree).exitCode = 0 :=
  success_output_no_tree (fun _ => false) pTree (by decide)

/-- C5: the exit status is 0 exactly when argument parsing succeeds and
validation passes, and every nonzero exit status is 2, covering both
validation failures and argparse-level rejections. -/
theorem main_exit_code (fs : String → Bool) (a : CliArgs) :
    ((main fs a).exitCode = 0 ↔
      ∃ p, parse_args a = Except.ok p ∧ validateConfig fs p = [])
    ∧ ((main fs a).exitCode ≠ 0 → (main fs a).exitCode = 2) := by
  constructor
  · constructor
    · intro h0
      cases hpa : parse_args a with
      | error code =>
        have hc := parse_args_error_code a code hpa
        have hcode : (main fs a).exitCode = code := by
          unfold main
          rw [hpa]
        omega
      | ok p =>
        by_cases hv : validateConfig fs p = []
        · exact ⟨p, rfl, hv⟩
        · have h2 : (main fs a).exitCode = 2 := by
            unfold main
            rw [hpa]
            show (mainOn fs p).exitCode = 2
            simp [mainOn, hv]
          omega
    · rintro ⟨p, hpa, hv⟩
      unfold main
      rw [hpa]
      show (mainOn fs p).exitCode = 0
      simp [mainOn, hv]
  · intro hne
    cases hpa : parse_args a with
    | error code =>
      have hc := parse_args_error_code a code hpa
      unfold main
      rw [hpa]
      exact hc
    | ok p =>
      by_cases hv : validateConfig fs p = []
      · refine absurd ?_ hne
        unfold main
        rw [hpa]
        show (mainOn fs p).exitCode = 0
        simp [mainOn, hv]
      · unfold main
        rw [hpa]
        show (mainOn fs p).exitCode = 2
        simp [mainOn, hv]

/-- Witness for C5: a missing required argument exits with status 2. -/
theorem main_exit_code_witness :
    (main (fun _ => false) { packageArg := none, repoArg := none }).exitCode = 2 :=
  (main_exit_code (fun _ => false) { packageArg := none, repoArg := none }).2 (by decide)

/-- C6 counterexample: with all four checked fields invalid at once, every
error is collected, but the order is package, repo, version, repo_mode,
not the claimed package, repo, repo_mode, version. -/
theorem error_order_cex :
    validateConfig (fun _ => false) pAllBad =
      [FieldErr.package, FieldErr.repo, FieldErr.version, FieldErr.repo_mode]
    ∧ [FieldErr.package, FieldErr.repo, FieldErr.version, FieldErr.repo_mode] ≠
      [FieldErr.package, FieldErr.repo, FieldErr.repo_mode, FieldErr.version] := by
  decide

/-- C6 (amended): validation is not fail-fast; each check's error appears
exactly when that check fails, independently of the other fields, and the
collected errors surface in the model's field declaration order package,
repo, version, repo_mode. -/
theorem errors_collected_in_field_order (fs : String → Bool) (p : Params) :
    List.Sublist (validateConfig fs p)
      [FieldErr.package, FieldErr.repo, FieldErr.version, FieldErr.repo_mode]
    ∧ (FieldErr.package ∈ validateConfig fs p ↔ packageOk p.package = false)
    ∧ (FieldErr.repo ∈ validateConfig fs p ↔ (looksLikeUrl p.repo || fs p.repo) = false)
    ∧ (FieldErr.version ∈ validateConfig fs p ↔ versionOk p.version = false)
    ∧ (FieldErr.repo_mode ∈ validateConfig fs p ↔ repoModeOk p.repo_mode = false) := by
  refine ⟨?_, mem_package_iff fs p, mem_repo_iff fs p, mem_version_iff fs p, mem_mode_iff fs p⟩
  unfold validateConfig
  split_ifs <;> simp

/-- C7: a package consisting only of whitespace, including the empty
string, always yields the package error, whatever the other fields and the
filesystem look like, and validation as a whole fails. -/
theorem whitespace_package_rejected (fs : String → Bool) (p : Params)
    (h : p.package.toList.all Char.isWhitespace = true) :
    FieldErr.package ∈ validateConfig fs p ∧ validateConfig fs p ≠ [] := by
  have hno : ∀ c ∈ p.package.toList, c ≠ ':' := by
    intro c hc heq
    have hw := (List.all_eq_true.mp h) c hc
    subst heq
    exact absurd hw (by decide)
  have hpf : packageOk p.package = false := packageOk_eq_false_of_no_colon _ hno
  have hmem : FieldErr.package ∈ validateConfig fs p := (mem_package_iff fs p).mpr hpf
  exact ⟨hmem, List.ne_nil_of_mem hmem⟩

/-- Witness for C7: a one-space package with every other field invalid as
well still produces the package error. -/
theorem whitespace_package_rejected_witness :
    FieldErr.package ∈ validateConfig (fun _ => false) pAllBad
    ∧ validateConfig (fun _ => false) pAllBad ≠ [] :=
  whitespace_package_rejected (fun _ => false) pAllBad (by decide)

/-- C8: the example command line with the guava coordinate, the Maven
central URL, version omitted and repo_mode auto parses to a configuration
with version latest, passes validation under every filesystem oracle, and
the echoed output contains the line version=latest with exit status 0. -/
theorem guava_example_accepted (fs : String → Bool) :
    parse_args guavaArgs = Except.ok guavaParams
    ∧ guavaParams.version = "latest"
    ∧ validateConfig fs guavaParams = []
    ∧ "version=latest" ∈ (mainOn fs guavaParams).stdout
    ∧ (mainOn fs guavaParams).exitCode = 0 := by
  have hurl : looksLikeUrl guavaParams.repo = true := by decide
  have hpk : packageOk guavaParams.package = true := by decide
  have hvo : versionOk guavaParams.version = true := by decide
  have hmo : repoModeOk guavaParams.repo_mode = true := by decide
  have hval : validateConfig fs guavaParams = [] := by
    simp [validateConfig, repoCheck_none_eq, hurl, hpk, hvo, hmo]
  have hstd : (mainOn fs guavaParams).stdout = print_config guavaParams ++ ["", validatedMsg] := by
    simp [mainOn, hval]
  refine ⟨rfl, rfl, hval, ?_, by simp [mainOn, hval]⟩
  rw [hstd]
  decide

/-- C9: the repo check does not depend on repo_mode: swapping any two mode
strings never changes whether the repo error occurs, and the repo error is
absent exactly when the repo string is a syntactically valid http or https
URL with a network location or an existing filesystem entry. -/
theorem repo_check_mode_independent (fs : String → Bool) (p : Params) (m1 m2 : String) :
    (FieldErr.repo ∈ validateConfig fs { p with repo_mode := m1 } ↔
      FieldErr.repo ∈ validateConfig fs { p with repo_mode := m2 })
    ∧ (FieldErr.repo ∉ validateConfig fs p ↔ (looksLikeUrl p.repo || fs p.repo) = true) := by
  constructor
  · rw [mem_repo_iff, mem_repo_iff]
  · cases hu : (looksLikeUrl p.repo || fs p.repo) <;> simp [mem_repo_iff, hu]

/-- C10: the version error occurs exactly on the explicitly empty version
string, so every nonempty version is accepted by the version check, and an
empty version makes validation as a whole fail. -/
theorem version_min_length (fs : String → Bool) (p : Params) :
    (FieldErr.version ∈ validateConfig fs p ↔ p.version = "")
    ∧ validateConfig fs { p with version := "" } ≠ [] := by
  constructor
  · exact (mem_version_iff fs p).trans (versionOk_false_iff p.version)
  · have hmem : FieldErr.version ∈ validateConfig fs { p with version := "" } := by
      rw [mem_version_iff]
      show versionOk "" = false
      decide
    exact List.ne_nil_of_mem hmem

end GraphPy
